import Mathlib

/-!
Verification of the Endercom Node.js SDK `AgentFunction` class
(`src/function.ts`), the webhook/function model runtime.

The embedding models JSON values (as parsed by the express `json()`
middleware), JavaScript truthiness (which governs the `||` fallbacks and
the `if (!x)` guards in the source), the mutable fields of an
`AgentFunction` instance, and each public method as an explicit
state-passing function.  Outbound axios calls are modelled by an explicit
`PlatformOutcome` argument describing what the network and the platform do
for that single request; axios's default `validateStatus` (reject any
non-2xx status) is part of the model.
-/

/-- Whether a fallible call returned normally rather than throwing. -/
def exceptIsOk : Except String α → Bool
  | .ok _ => true
  | .error _ => false

/-- A JSON value, as delivered by `express.json()` or by an axios response
body.  Numbers are modelled as integers: no claim depends on fractional
values. -/
inductive Json where
  | null : Json
  | bool : Bool → Json
  | num : Int → Json
  | str : String → Json
  | arr : List Json → Json
  | obj : List (String × Json) → Json

/-- First-match lookup of a key in a JSON object field list. -/
def lookupField : List (String × Json) → String → Option Json
  | [], _ => none
  | (k, v) :: rest, key => if k == key then some v else lookupField rest key

/-- JavaScript property access `v.key`: `some` the field value when `v` is
an object with that field, `none` (i.e. `undefined`) otherwise. -/
def Json.getField : Json → String → Option Json
  | .obj fields, key => lookupField fields key
  | _, _ => none

/-- JavaScript truthiness of a JSON value: `null`, `false`, `0` and `""`
are falsy; every other value, including `{}` and `[]`, is truthy. -/
def Json.jsTruthy : Json → Bool
  | .null => false
  | .bool b => b
  | .num n => n != 0
  | .str s => s != ""
  | .arr _ => true
  | .obj _ => true

/-- Truthiness of `v.key` for a JSON value `v`: a missing field is
`undefined`, which is falsy. -/
def jsTruthyField (v : Json) (key : String) : Bool :=
  match v.getField key with
  | some w => w.jsTruthy
  | none => false

mutual
/-- JavaScript string coercion of a JSON value, as used by template
literals: objects display as `[object Object]`, arrays join their
elements with commas. -/
def Json.jsDisplay : Json → String
  | .null => "null"
  | .bool b => cond b "true" "false"
  | .num n => toString n
  | .str s => s
  | .obj _ => "[object Object]"
  | .arr xs => jsDisplayList xs

/-- `Array.prototype.join(",")` on JSON elements; `null` elements render
as the empty string, per `Array.prototype.join`. -/
def jsDisplayList : List Json → String
  | [] => ""
  | [Json.null] => ""
  | [x] => x.jsDisplay
  | Json.null :: rest => "," ++ jsDisplayList rest
  | x :: rest => x.jsDisplay ++ "," ++ jsDisplayList rest
end

/-- The handler callback: one JSON input to either a JSON result or a
failure carrying the thrown error's message.  A synchronous handler and an
asynchronously-completing one are indistinguishable after the `await` in
the source, so a single function type models both. -/
def FunctionHandler := Json → Except String Json

/-- The options object accepted by the `AgentFunction` constructor.
`name` is required by the TypeScript type; the optional fields model an
absent property as `none`. -/
structure FunctionOptions where
  name : String
  description : Option String := none
  capabilities : Option (List String) := none
  platformUrl : Option String := none
  autoRegister : Option Bool := none
  debug : Option Bool := none

/-- JavaScript `opt || dflt` for an optional string: an absent property
(`undefined`) and the empty string are both falsy and fall back. -/
def jsOrString (opt : Option String) (dflt : String) : String :=
  match opt with
  | some s => if s == "" then dflt else s
  | none => dflt

/-- The mutable fields of an `AgentFunction` instance.  `server` records
the host and port passed to `app.listen` once `run` has bound the
listener (`this.server` is never reset to null in the source). -/
structure AgentFunction where
  name : String
  description : String
  capabilities : List String
  platformUrl : String
  autoRegister : Bool
  debug : Bool
  handler : Option FunctionHandler
  functionId : Option Json
  endpointUrl : Option String
  server : Option (String × Nat)

/-- The field initialisations performed by the constructor body:
`description`, `platformUrl` and `debug` use `||` defaulting,
`capabilities` uses `||` but an array (even empty) is truthy, and
`autoRegister` is `options.autoRegister !== false`. -/
def AgentFunction.init (opts : FunctionOptions) : AgentFunction :=
  { name := opts.name
    description := jsOrString opts.description ""
    capabilities := opts.capabilities.getD []
    platformUrl := jsOrString opts.platformUrl "http://localhost:3000"
    autoRegister := opts.autoRegister != some false
    debug := opts.debug.getD false
    handler := none
    functionId := none
    endpointUrl := none
    server := none }

/-- The constructor as a fallible call: a JavaScript constructor may
throw, but this one performs no validation and always succeeds. -/
def AgentFunction.construct (opts : FunctionOptions) : Except String AgentFunction :=
  .ok (AgentFunction.init opts)

/-- `setHandler`: replaces any previously attached handler. -/
def AgentFunction.setHandler (f : AgentFunction) (h : FunctionHandler) : AgentFunction :=
  { f with handler := some h }

/-- An HTTP response produced by one of the express routes. -/
structure HttpResponse where
  status : Nat
  body : Json

/-- `const inputData = req.body.input || req.body`: the `input` field when
it is present and truthy, otherwise the whole body. -/
def extractInput (body : Json) : Json :=
  match body.getField "input" with
  | some v => if v.jsTruthy then v else body
  | none => body

/-- The `POST /execute` route: missing handler gives a 500, a handler
failure is caught and gives a 500 with the message embedded, and a
handler success is sent with `res.json(result)` (status 200). -/
def AgentFunction.executePost (f : AgentFunction) (body : Json) : HttpResponse :=
  match f.handler with
  | none => { status := 500, body := .obj [("error", .str "No handler defined for this function")] }
  | some h =>
    match h (extractInput body) with
    | .ok result => { status := 200, body := result }
    | .error msg =>
      { status := 500
        body := .obj [("error", .str ("Function execution failed: " ++ msg))] }

/-- The `GET /health` route. -/
def AgentFunction.healthGet (f : AgentFunction) : HttpResponse :=
  { status := 200, body := .obj [("status", .str "ok"), ("name", .str f.name)] }

/-- The `GET /info` route. -/
def AgentFunction.infoGet (f : AgentFunction) : HttpResponse :=
  { status := 200
    body := .obj [("name", .str f.name), ("description", .str f.description),
                  ("capabilities", .arr (f.capabilities.map Json.str)),
                  ("status", .str "running")] }

/-- What the network and the platform do for one outbound axios request:
either the request fails to produce a response (connection error or
timeout, rejecting with the given message), or the platform answers with
an HTTP status and a JSON body. -/
inductive PlatformOutcome where
  | networkError : String → PlatformOutcome
  | response : Nat → Json → PlatformOutcome

/-- An axios request under the default `validateStatus`: a non-2xx status
rejects with `Request failed with status code N`; a 2xx response
resolves with its status and body. -/
def axiosResult : PlatformOutcome → Except String (Nat × Json)
  | .networkError msg => .error msg
  | .response status body =>
    if 200 ≤ status ∧ status < 300 then .ok (status, body)
    else .error ("Request failed with status code " ++ toString status)

/-- JavaScript falsiness of the `endpointUrl` field (`!this.endpointUrl`):
null or the empty string. -/
def optStrFalsy : Option String → Bool
  | none => true
  | some s => s == ""

/-- JavaScript falsiness of the `functionId` field (`!this.functionId`):
null/undefined or a falsy stored value. -/
def optJsonFalsy : Option Json → Bool
  | none => true
  | some v => !v.jsTruthy

/-- The endpoint URL computed by `registerWithPlatform`. -/
def mkEndpointUrl (host : String) (port : Nat) : String :=
  "http://" ++ host ++ ":" ++ toString port ++ "/execute"

/-- `response.data.error || 'Unknown error'` rendered into the thrown
message. -/
def registrationErrorText (body : Json) : String :=
  match body.getField "error" with
  | some e => if e.jsTruthy then e.jsDisplay else "Unknown error"
  | none => "Unknown error"

/-- `registerWithPlatform(host, port)`: computes the endpoint URL if the
field is falsy, performs one POST to the platform, and on a 201 response
whose body has truthy `success` and truthy `data` stores `data.id` as the
function identifier and returns the body.  Every other outcome (axios
rejection, including non-2xx statuses, or a 2xx response failing the
check) throws `Platform registration failed: ...` wrapping the cause's
message; the inner `Registration failed: ...` throw is caught by the same
`catch` and wrapped again. -/
def AgentFunction.registerWithPlatform (f : AgentFunction) (host : String) (port : Nat)
    (outcome : PlatformOutcome) : AgentFunction × Except String Json :=
  let f1 := if optStrFalsy f.endpointUrl
            then { f with endpointUrl := some (mkEndpointUrl host port) }
            else f
  match axiosResult outcome with
  | .error msg => (f1, .error ("Platform registration failed: " ++ msg))
  | .ok (status, body) =>
    if status == 201 && jsTruthyField body "success" && jsTruthyField body "data" then
      ({ f1 with functionId := (body.getField "data").bind (fun d => d.getField "id") },
       .ok body)
    else
      (f1, .error ("Platform registration failed: Registration failed: " ++
                   registrationErrorText body))

/-- `unregisterFromPlatform()`: returns false without a request when the
stored identifier is falsy; otherwise performs one DELETE and returns
true exactly on an HTTP 200 response.  Any axios rejection, and any 2xx
status other than 200, returns false.  No field of the instance is
modified on any path. -/
def AgentFunction.unregisterFromPlatform (f : AgentFunction)
    (outcome : PlatformOutcome) : AgentFunction × Bool :=
  if optJsonFalsy f.functionId then (f, false)
  else
    match axiosResult outcome with
    | .error _ => (f, false)
    | .ok (status, _) => (f, if status == 200 then true else false)

/-- `run(port, host)`: throws when no handler is attached; otherwise, if
auto-register is enabled, awaits `registerWithPlatform` swallowing any
failure (keeping its state mutations), then binds the listener and
resolves. -/
def AgentFunction.run (f : AgentFunction) (port : Nat) (host : String)
    (regOutcome : PlatformOutcome) : AgentFunction × Except String Unit :=
  match f.handler with
  | none => (f, .error "No handler defined. Use setHandler() first.")
  | some _ =>
    let f1 := if f.autoRegister
              then (f.registerWithPlatform host port regOutcome).1
              else f
    ({ f1 with server := some (host, port) }, .ok ())

/-- `stop()`: closes the listener when bound (`this.server` stays set in
the source) and, when auto-register is enabled and an identifier is on
record, attempts unregistration, swallowing failures.  Neither branch
modifies any modelled field. -/
def AgentFunction.stop (f : AgentFunction) (outcome : PlatformOutcome) : AgentFunction :=
  if f.autoRegister && !optJsonFalsy f.functionId
  then (f.unregisterFromPlatform outcome).1
  else f

/-- The check `registerWithPlatform` applies to a platform answer: HTTP
status 201 with a body whose `success` and `data` fields are truthy.
This is a function of the outcome alone. -/
def regSuccessShaped : PlatformOutcome → Bool
  | .networkError _ => false
  | .response status body =>
    status == 201 && jsTruthyField body "success" && jsTruthyField body "data"

/-- One externally observable method call on an `AgentFunction`
instance, with the platform outcome of any outbound request it makes. -/
inductive Event where
  | setHandler : FunctionHandler → Event
  | register : String → Nat → PlatformOutcome → Event
  | unregister : PlatformOutcome → Event
  | runServer : Nat → String → PlatformOutcome → Event
  | stopServer : PlatformOutcome → Event

/-- The instance state together with whether the listener was bound at
some point of the history. -/
structure TraceState where
  f : AgentFunction
  everBound : Bool

/-- The effect of one method call on the instance state.  `run` resolves
exactly when it binds the listener, so `everBound` absorbs its result. -/
def stepEvent (s : TraceState) : Event → TraceState
  | .setHandler h => { s with f := s.f.setHandler h }
  | .register host port o => { s with f := (s.f.registerWithPlatform host port o).1 }
  | .unregister o => { s with f := (s.f.unregisterFromPlatform o).1 }
  | .runServer port host o =>
    let r := s.f.run port host o
    { f := r.1, everBound := s.everBound || exceptIsOk r.2 }
  | .stopServer o => { s with f := s.f.stop o }

/-- The state reached from a freshly constructed instance by a sequence
of method calls. -/
def runTrace (opts : FunctionOptions) (events : List Event) : TraceState :=
  events.foldl stepEvent { f := AgentFunction.init opts, everBound := false }

/-- Whether an event carries a platform outcome that passes the
registration success check. -/
def eventSuccessShaped : Event → Bool
  | .register _ _ o => regSuccessShaped o
  | .runServer _ _ o => regSuccessShaped o
  | _ => false

/-- The invariant relating the registration record to the endpoint URL
field: whenever an identifier is stored, the endpoint URL is set. -/
def recordImpliesEndpoint (f : AgentFunction) : Prop :=
  f.functionId.isSome = true → f.endpointUrl.isSome = true

/-- A successful registration answer from the platform: HTTP 201 with a
truthy `success` field and a `data` object carrying the assigned id. -/
def regOkOutcome : PlatformOutcome :=
  .response 201 (Json.obj [("success", Json.bool true),
                           ("data", Json.obj [("id", Json.str "fn-1")])])

/-- A successful deregistration answer from the platform: HTTP 200. -/
def unregOkOutcome : PlatformOutcome :=
  .response 200 (Json.obj [("success", Json.bool true)])

/-- A registration answer with HTTP 201 and a truthy `success` field
whose `data` field is present but falsy. -/
def dataFalsyOutcome : PlatformOutcome :=
  .response 201 (Json.obj [("success", Json.bool true), ("data", Json.bool false)])

/-- A handler that wraps its input in an `echo` object. -/
def echoHandler : FunctionHandler :=
  fun x => .ok (Json.obj [("echo", x)])

/-- A handler that always throws `Error("boom")`. -/
def boomHandler : FunctionHandler :=
  fun _ => .error "boom"

/-- `registerWithPlatform` returns normally exactly when the outcome
passes the success check. -/
theorem register_isOk (f : AgentFunction) (host : String) (port : Nat)
    (o : PlatformOutcome) :
    exceptIsOk (f.registerWithPlatform host port o).2 = regSuccessShaped o := by
  cases o with
  | networkError msg => rfl
  | response status body =>
    simp only [AgentFunction.registerWithPlatform, axiosResult, regSuccessShaped]
    by_cases hr : 200 ≤ status ∧ status < 300
    · cases hs : (status == 201 && jsTruthyField body "success" && jsTruthyField body "data") <;>
        simp [hr, hs, exceptIsOk]
    · have h201 : (status == 201) = false := by
        rw [beq_eq_false_iff_ne]
        omega
      simp [hr, h201, exceptIsOk]

/-- On an outcome failing the success check, `registerWithPlatform` does
not modify `functionId`. -/
theorem register_fail_functionId (f : AgentFunction) (host : String) (port : Nat)
    (o : PlatformOutcome) (hfail : regSuccessShaped o = false) :
    (f.registerWithPlatform host port o).1.functionId = f.functionId := by
  cases o with
  | networkError msg =>
    simp only [AgentFunction.registerWithPlatform, axiosResult]
    by_cases he : optStrFalsy f.endpointUrl <;> simp [he]
  | response status body =>
    simp only [regSuccessShaped] at hfail
    simp only [AgentFunction.registerWithPlatform, axiosResult]
    by_cases hr : 200 ≤ status ∧ status < 300 <;>
      by_cases he : optStrFalsy f.endpointUrl <;>
      simp [hr, he, hfail]

/-- After any `registerWithPlatform` call the `endpointUrl` field holds a
nonempty URL: either the freshly computed one or the previously stored
one. -/
theorem register_endpointUrl_set (f : AgentFunction) (host : String) (port : Nat)
    (o : PlatformOutcome) :
    (f.registerWithPlatform host port o).1.endpointUrl = some (mkEndpointUrl host port)
    ∨ (f.registerWithPlatform host port o).1.endpointUrl = f.endpointUrl := by
  cases o with
  | networkError msg =>
    simp only [AgentFunction.registerWithPlatform, axiosResult]
    by_cases he : optStrFalsy f.endpointUrl <;> simp [he]
  | response status body =>
    simp only [AgentFunction.registerWithPlatform, axiosResult]
    by_cases hr : 200 ≤ status ∧ status < 300 <;>
      by_cases he : optStrFalsy f.endpointUrl <;>
      by_cases hs : (status == 201 && jsTruthyField body "success" && jsTruthyField body "data") = true <;>
      simp [hr, he, hs]

/-- `unregisterFromPlatform` never modifies the instance state. -/
theorem unregister_preserves_state (f : AgentFunction) (o : PlatformOutcome) :
    (f.unregisterFromPlatform o).1 = f := by
  simp only [AgentFunction.unregisterFromPlatform]
  by_cases hid : optJsonFalsy f.functionId
  · simp [hid]
  · cases h : axiosResult o <;> simp [hid, h]

/-- `stop` never modifies the instance state. -/
theorem stop_preserves_state (f : AgentFunction) (o : PlatformOutcome) :
    f.stop o = f := by
  simp only [AgentFunction.stop]
  by_cases hc : f.autoRegister && !optJsonFalsy f.functionId
  · simp [hc, unregister_preserves_state]
  · simp [hc]

/-- After any `registerWithPlatform` call, whatever the outcome, the
`endpointUrl` field is set: the first statement of the method assigns it
whenever it was falsy, before the outbound request is issued. -/
theorem register_endpointUrl_isSome (f : AgentFunction) (host : String) (port : Nat)
    (o : PlatformOutcome) :
    (f.registerWithPlatform host port o).1.endpointUrl.isSome = true := by
  rcases register_endpointUrl_set f host port o with h | h
  · simp [h]
  · rw [h]
    cases he : f.endpointUrl with
    | none =>
      exfalso
      have : optStrFalsy f.endpointUrl = true := by simp [optStrFalsy, he]
      simp only [AgentFunction.registerWithPlatform, this, if_true] at h
      cases o with
      | networkError msg => simp [axiosResult, he] at h
      | response status body =>
        by_cases hr : 200 ≤ status ∧ status < 300 <;>
          by_cases hs : (status == 201 && jsTruthyField body "success"
                          && jsTruthyField body "data") = true <;>
          simp [axiosResult, hr, hs, he] at h
    | some s => simp

/-- When the `endpointUrl` field starts out falsy, `registerWithPlatform`
stores the freshly computed URL, on every outcome. -/
theorem register_endpointUrl_compute (f : AgentFunction) (host : String) (port : Nat)
    (o : PlatformOutcome) (he : optStrFalsy f.endpointUrl = true) :
    (f.registerWithPlatform host port o).1.endpointUrl = some (mkEndpointUrl host port) := by
  simp only [AgentFunction.registerWithPlatform, he, if_true]
  cases o with
  | networkError msg => simp [axiosResult]
  | response status body =>
    by_cases hr : 200 ≤ status ∧ status < 300 <;>
      by_cases hs : (status == 201 && jsTruthyField body "success"
                      && jsTruthyField body "data") = true <;>
      simp [axiosResult, hr, hs]

/-- One step preserves the record-implies-endpoint invariant. -/
theorem stepEvent_preserves_recordImpliesEndpoint (s : TraceState) (e : Event)
    (hs : recordImpliesEndpoint s.f) : recordImpliesEndpoint (stepEvent s e).f := by
  cases e with
  | setHandler h => exact hs
  | register host port o =>
    intro _
    exact register_endpointUrl_isSome s.f host port o
  | unregister o =>
    simpa [stepEvent, unregister_preserves_state] using hs
  | runServer port host o =>
    simp only [stepEvent, AgentFunction.run]
    cases hh : s.f.handler with
    | none => exact hs
    | some h =>
      by_cases ha : s.f.autoRegister
      · intro _
        simpa [ha] using register_endpointUrl_isSome s.f host port o
      · simpa [ha, recordImpliesEndpoint] using hs
  | stopServer o =>
    simpa [stepEvent, stop_preserves_state] using hs

/-- The record-implies-endpoint invariant is preserved along any event
sequence. -/
theorem foldl_preserves_recordImpliesEndpoint (events : List Event) (s : TraceState)
    (hs : recordImpliesEndpoint s.f) :
    recordImpliesEndpoint (events.foldl stepEvent s).f := by
  induction events generalizing s with
  | nil => exact hs
  | cons e rest ih =>
    exact ih (stepEvent s e) (stepEvent_preserves_recordImpliesEndpoint s e hs)

/-- A step whose event does not carry a success-shaped platform answer
leaves `functionId` unchanged. -/
theorem stepEvent_functionId_unchanged (s : TraceState) (e : Event)
    (he : eventSuccessShaped e = false) :
    (stepEvent s e).f.functionId = s.f.functionId := by
  cases e with
  | setHandler h => rfl
  | register host port o =>
    exact register_fail_functionId s.f host port o he
  | unregister o =>
    simp [stepEvent, unregister_preserves_state]
  | runServer port host o =>
    simp only [stepEvent, AgentFunction.run]
    cases hh : s.f.handler with
    | none => rfl
    | some h =>
      by_cases ha : s.f.autoRegister
      · simpa [ha] using register_fail_functionId s.f host port o he
      · simp [ha]
  | stopServer o =>
    simp [stepEvent, stop_preserves_state]

/-- Along a sequence of events none of which carries a success-shaped
platform answer, `functionId` never changes. -/
theorem foldl_functionId_unchanged (events : List Event) (s : TraceState)
    (hall : events.all (fun e => !eventSuccessShaped e) = true) :
    (events.foldl stepEvent s).f.functionId = s.f.functionId := by
  induction events generalizing s with
  | nil => rfl
  | cons e rest ih =>
    simp only [List.all_cons, Bool.and_eq_true, Bool.not_eq_true'] at hall
    rw [List.foldl_cons, ih (stepEvent s e) (by simp [hall.2]),
        stepEvent_functionId_unchanged s e hall.1]

/-- Claim C1: for every attached handler and JSON value X, a POST to
`/execute` with body `{input: X}` invokes the handler and, when the
handler completes successfully, the response has status 200 and its body
is exactly the handler's returned value, unchanged. -/
theorem execute_returns_handler_result (f : AgentFunction) (h : FunctionHandler)
    (X r : Json) (hh : f.handler = some h)
    (hr : h (extractInput (Json.obj [("input", X)])) = .ok r) :
    f.executePost (Json.obj [("input", X)]) = { status := 200, body := r } := by
  simp [AgentFunction.executePost, hh, hr]

/-- Witness for C1: the echo handler on `{input: 1}` answers 200 with
`{echo: 1}`. -/
theorem execute_returns_handler_result_witness :
    ((AgentFunction.init { name := "Echo" }).setHandler echoHandler).executePost
      (Json.obj [("input", Json.num 1)])
      = { status := 200, body := Json.obj [("echo", Json.num 1)] } :=
  execute_returns_handler_result _ echoHandler (Json.num 1)
    (Json.obj [("echo", Json.num 1)]) rfl rfl

/-- Claim C5: for every handler failure during a POST to `/execute`, the
response has status 500 and body `{error: "Function execution failed: "}`
followed by the failure's message; the route's catch block produces this
response instead of letting the error escape, so the process does not
terminate. -/
theorem execute_handler_failure_500 (f : AgentFunction) (h : FunctionHandler)
    (body : Json) (msg : String) (hh : f.handler = some h)
    (hr : h (extractInput body) = .error msg) :
    f.executePost body
      = { status := 500
          body := .obj [("error", .str ("Function execution failed: " ++ msg))] } := by
  simp [AgentFunction.executePost, hh, hr]

/-- Witness for C5: a handler throwing `Error("boom")` on `{input: {a: 1}}`
answers 500 with `{error: "Function execution failed: boom"}`. -/
theorem execute_handler_failure_500_witness :
    ((AgentFunction.init { name := "Echo" }).setHandler boomHandler).executePost
      (Json.obj [("input", Json.obj [("a", Json.num 1)])])
      = { status := 500
          body := Json.obj [("error", Json.str "Function execution failed: boom")] } :=
  execute_handler_failure_500 _ boomHandler
    (Json.obj [("input", Json.obj [("a", Json.num 1)])]) "boom" rfl rfl

/-- Counterexample to C6 as stated: with body `{input: 0}` the `input`
field is present, yet `req.body.input || req.body` evaluates to the whole
body because `0` is falsy, so the handler does not receive the `input`
field's value. -/
theorem extract_input_falsy_counterexample :
    (Json.obj [("input", Json.num 0)]).getField "input" = some (Json.num 0)
    ∧ extractInput (Json.obj [("input", Json.num 0)]) = Json.obj [("input", Json.num 0)]
    ∧ extractInput (Json.obj [("input", Json.num 0)]) ≠ Json.num 0 :=
  ⟨rfl, rfl, fun hcontra => Json.noConfusion hcontra⟩

/-- Claim C6 (amended): the payload passed to the handler is the request
body's `input` field when that field is present and truthy; when the
field is absent, or present but falsy (`null`, `false`, `0`, `""`), the
whole request body is passed instead. -/
theorem extract_input_extraction (body v : Json) :
    (body.getField "input" = some v → v.jsTruthy = true → extractInput body = v)
    ∧ (body.getField "input" = some v → v.jsTruthy = false → extractInput body = body)
    ∧ (body.getField "input" = none → extractInput body = body) := by
  refine ⟨fun hf ht => ?_, fun hf ht => ?_, fun hf => ?_⟩
  · simp [extractInput, hf, ht]
  · simp [extractInput, hf, ht]
  · simp [extractInput, hf]

/-- Witness for C6 (amended): body `{input: false}` has a present but
falsy `input` field, and the whole body is the extracted payload. -/
theorem extract_input_extraction_witness :
    extractInput (Json.obj [("input", Json.bool false)])
      = Json.obj [("input", Json.bool false)] :=
  (extract_input_extraction (Json.obj [("input", Json.bool false)])
    (Json.bool false)).2.1 rfl rfl

/-- Claim C8: calling `run` with no handler attached throws the
configuration error and leaves the instance state untouched: no listener
is recorded as bound and no registration call is made (neither
`functionId` nor `endpointUrl` is touched). -/
theorem run_requires_handler (f : AgentFunction) (port : Nat) (host : String)
    (o : PlatformOutcome) (hh : f.handler = none) :
    f.run port host o = (f, .error "No handler defined. Use setHandler() first.") := by
  simp [AgentFunction.run, hh]

/-- Witness for C8: a freshly constructed instance, which has no handler,
fails `run` with the configuration error and is returned unchanged. -/
theorem run_requires_handler_witness :
    (AgentFunction.init { name := "Echo" }).run 3001 "localhost"
        (PlatformOutcome.networkError "connect ECONNREFUSED")
      = (AgentFunction.init { name := "Echo" },
         .error "No handler defined. Use setHandler() first.") :=
  run_requires_handler (AgentFunction.init { name := "Echo" }) 3001 "localhost"
    (PlatformOutcome.networkError "connect ECONNREFUSED") rfl

/-- Counterexample to C2 as stated: calling `registerWithPlatform` with a
successful platform answer on a freshly constructed instance stores the
platform-assigned identifier while the listener was never bound; inside
`run` the registration call is likewise awaited before `app.listen` is
reached. -/
theorem registration_before_listener_counterexample :
    (runTrace { name := "Echo" }
        [Event.register "localhost" 3001 regOkOutcome]).f.functionId
      = some (Json.str "fn-1")
    ∧ (runTrace { name := "Echo" }
        [Event.register "localhost" 3001 regOkOutcome]).everBound = false :=
  ⟨rfl, rfl⟩

/-- Claim C2 (amended): in every reachable state, existence of the
registration record implies only that the endpoint URL field has been
computed and stored; it does not imply the listener was ever bound, since
`run` performs the registration call before binding and
`registerWithPlatform` is callable with no listener at all. -/
theorem registration_record_implies_endpoint (opts : FunctionOptions)
    (events : List Event)
    (hreg : (runTrace opts events).f.functionId.isSome = true) :
    (runTrace opts events).f.endpointUrl.isSome = true :=
  foldl_preserves_recordImpliesEndpoint events
    { f := AgentFunction.init opts, everBound := false }
    (fun hcontra => by simp [AgentFunction.init] at hcontra) hreg

/-- Witness for C2 (amended): after a successful direct registration the
record exists and the endpoint URL is set. -/
theorem registration_record_implies_endpoint_witness :
    (runTrace { name := "Echo" }
        [Event.register "localhost" 3001 regOkOutcome]).f.endpointUrl.isSome = true :=
  registration_record_implies_endpoint { name := "Echo" }
    [Event.register "localhost" 3001 regOkOutcome] rfl

/-- Counterexample to C3 as stated: after a successful registration, a
successful deregistration (HTTP 200, `unregisterFromPlatform` returns
true) leaves the stored identifier in place — the source never assigns
`this.functionId = null`. -/
theorem unregister_does_not_clear_counterexample :
    ((runTrace { name := "Echo" }
        [Event.register "localhost" 3001 regOkOutcome]).f.unregisterFromPlatform
          unregOkOutcome).2 = true
    ∧ ((runTrace { name := "Echo" }
        [Event.register "localhost" 3001 regOkOutcome]).f.unregisterFromPlatform
          unregOkOutcome).1.functionId = some (Json.str "fn-1") :=
  ⟨rfl, rfl⟩

/-- Claim C3 (amended): the registration record is absent before the
first successful registration — along any event sequence in which no
platform answer passes the registration success check, `functionId`
stays `none` — but a successful deregistration does not clear it:
`unregisterFromPlatform` returns the instance state unchanged on every
path. -/
theorem registration_record_lifecycle :
    (∀ (opts : FunctionOptions) (events : List Event),
       events.all (fun e => !eventSuccessShaped e) = true →
       (runTrace opts events).f.functionId = none)
    ∧ (∀ (f : AgentFunction) (o : PlatformOutcome),
       (f.unregisterFromPlatform o).1 = f) := by
  constructor
  · intro opts events hall
    rw [runTrace, foldl_functionId_unchanged events _ hall]
    rfl
  · intro f o
    exact unregister_preserves_state f o

/-- Witness for C3 (amended): after one failed registration attempt the
record is still absent, and a deregistration attempt leaves a registered
instance unchanged. -/
theorem registration_record_lifecycle_witness :
    (runTrace { name := "Echo" }
        [Event.register "localhost" 3001
          (PlatformOutcome.networkError "connect ECONNREFUSED")]).f.functionId = none :=
  registration_record_lifecycle.1 { name := "Echo" }
    [Event.register "localhost" 3001
      (PlatformOutcome.networkError "connect ECONNREFUSED")] rfl

/-- Counterexample to C4 as stated: a 201 answer whose body has truthy
`success` and a `data` field that is present but falsy (`data: false`)
is rejected by the code — success requires `data` to be truthy, not
merely present. -/
theorem register_data_present_counterexample :
    (Json.obj [("success", Json.bool true), ("data", Json.bool false)]).getField "data"
      = some (Json.bool false)
    ∧ exceptIsOk ((AgentFunction.init { name := "Echo" }).registerWithPlatform
        "localhost" 3001 dataFalsyOutcome).2 = false
    ∧ ((AgentFunction.init { name := "Echo" }).registerWithPlatform
        "localhost" 3001 dataFalsyOutcome).2
      = .error "Platform registration failed: Registration failed: Unknown error" :=
  ⟨rfl, rfl, rfl⟩

/-- Claim C4 (amended): `registerWithPlatform` succeeds exactly when the
platform answers HTTP 201 with a body whose `success` field is truthy
and whose `data` field is truthy (not merely present); on success it
stores `data.id` as the function identifier and returns the response
body; a network failure or timeout is reported as a registration error
carrying the cause's message, and every failure, with no retry, is an
error prefixed `Platform registration failed: ` wrapping the underlying
cause. -/
theorem register_success_characterization (f : AgentFunction) (host : String)
    (port : Nat) (o : PlatformOutcome) :
    (exceptIsOk (f.registerWithPlatform host port o).2 = true ↔
       ∃ body, o = PlatformOutcome.response 201 body
         ∧ jsTruthyField body "success" = true ∧ jsTruthyField body "data" = true)
    ∧ (∀ body, o = PlatformOutcome.response 201 body →
         jsTruthyField body "success" = true → jsTruthyField body "data" = true →
         (f.registerWithPlatform host port o).2 = .ok body
         ∧ (f.registerWithPlatform host port o).1.functionId
             = (body.getField "data").bind (fun d => d.getField "id"))
    ∧ (∀ msg, o = PlatformOutcome.networkError msg →
         (f.registerWithPlatform host port o).2
           = .error ("Platform registration failed: " ++ msg))
    ∧ (exceptIsOk (f.registerWithPlatform host port o).2 = false →
         ∃ cause, (f.registerWithPlatform host port o).2
           = .error ("Platform registration failed: " ++ cause)) := by
  refine ⟨?_, ?_, ?_, ?_⟩
  · rw [register_isOk]
    cases o with
    | networkError msg =>
      simp [regSuccessShaped]
    | response status body =>
      simp only [regSuccessShaped, Bool.and_eq_true, beq_iff_eq]
      constructor
      · rintro ⟨⟨h201, hsucc⟩, hdata⟩
        exact ⟨body, by rw [h201], hsucc, hdata⟩
      · rintro ⟨b, hb, hsucc, hdata⟩
        cases hb
        exact ⟨⟨rfl, hsucc⟩, hdata⟩
  · rintro body rfl hsucc hdata
    constructor <;>
      simp [AgentFunction.registerWithPlatform, axiosResult, hsucc, hdata]
  · rintro msg rfl
    simp [AgentFunction.registerWithPlatform, axiosResult]
  · intro hfail
    cases o with
    | networkError msg =>
      refine ⟨msg, ?_⟩
      simp [AgentFunction.registerWithPlatform, axiosResult]
    | response status body =>
      rw [register_isOk] at hfail
      simp only [AgentFunction.registerWithPlatform, axiosResult]
      by_cases hr : 200 ≤ status ∧ status < 300
      · simp only [regSuccessShaped] at hfail
        refine ⟨"Registration failed: " ++ registrationErrorText body, ?_⟩
        have hlit : "Platform registration failed: Registration failed: "
            = "Platform registration failed: " ++ "Registration failed: " := rfl
        simp [hr, hfail]
        rw [hlit, String.append_assoc]
      · refine ⟨"Request failed with status code " ++ toString status, ?_⟩
        simp [hr]

/-- Witness for C4 (amended): a 201 answer with truthy `success` and a
`data` object carrying id `fn-1` makes the call return the body and
store the identifier. -/
theorem register_success_characterization_witness :
    ((AgentFunction.init { name := "Echo" }).registerWithPlatform
        "localhost" 3001 regOkOutcome).2
      = .ok (Json.obj [("success", Json.bool true),
                       ("data", Json.obj [("id", Json.str "fn-1")])])
    ∧ ((AgentFunction.init { name := "Echo" }).registerWithPlatform
        "localhost" 3001 regOkOutcome).1.functionId = some (Json.str "fn-1") := by
  have h := (register_success_characterization (AgentFunction.init { name := "Echo" })
    "localhost" 3001 regOkOutcome).2.1
    (Json.obj [("success", Json.bool true),
               ("data", Json.obj [("id", Json.str "fn-1")])]) rfl rfl rfl
  exact ⟨h.1, h.2.trans rfl⟩

/-- Claim C7: when auto-register is enabled and the registration attempt
made inside `run` fails, the failure is swallowed by the surrounding
catch: `run` still binds the listener on the requested host and port and
resolves successfully. -/
theorem run_swallows_registration_failure (f : AgentFunction) (h : FunctionHandler)
    (port : Nat) (host : String) (o : PlatformOutcome)
    (hh : f.handler = some h) (hauto : f.autoRegister = true)
    (_hfail : regSuccessShaped o = false) :
    (f.run port host o).2 = .ok ()
    ∧ (f.run port host o).1.server = some (host, port) := by
  constructor <;> simp [AgentFunction.run, hh, hauto]

/-- Witness for C7: with a handler attached, auto-register on by default
and the platform unreachable, `run` resolves and records the listener on
localhost:3001. -/
theorem run_swallows_registration_failure_witness :
    (((AgentFunction.init { name := "Echo" }).setHandler echoHandler).run 3001 "localhost"
        (PlatformOutcome.networkError "connect ECONNREFUSED")).2 = .ok ()
    ∧ (((AgentFunction.init { name := "Echo" }).setHandler echoHandler).run 3001 "localhost"
        (PlatformOutcome.networkError "connect ECONNREFUSED")).1.server
      = some ("localhost", 3001) :=
  run_swallows_registration_failure _ echoHandler 3001 "localhost"
    (PlatformOutcome.networkError "connect ECONNREFUSED") rfl rfl rfl

/-- Counterexample to C9 as stated: the constructor performs no
validation, so constructing with the empty name succeeds and stores the
empty string, instead of failing with a construction-time error. -/
theorem construct_empty_name_counterexample :
    exceptIsOk (AgentFunction.construct { name := "" }) = true
    ∧ AgentFunction.construct { name := "" } = .ok (AgentFunction.init { name := "" })
    ∧ (AgentFunction.init { name := "" }).name = "" :=
  ⟨rfl, rfl, rfl⟩

/-- Claim C9 (amended): construction never fails at runtime — the name is
stored exactly as supplied, empty or not, with no validation; absence of
the name is prevented only by the static TypeScript type, not by any
runtime check. -/
theorem construct_no_validation (opts : FunctionOptions) :
    ∃ f, AgentFunction.construct opts = .ok f
      ∧ f.name = opts.name
      ∧ f.handler = none ∧ f.functionId = none
      ∧ f.endpointUrl = none ∧ f.server = none :=
  ⟨AgentFunction.init opts, rfl, rfl, rfl, rfl, rfl, rfl⟩

/-- Claim C10: when `registerWithPlatform` fails, `functionId` is exactly
what it was before the call (it is assigned only on the success path),
while the endpoint URL is nevertheless set — computed afresh when the
field was empty — because that assignment precedes the outbound
request. -/
theorem register_failure_preserves_functionId (f : AgentFunction) (host : String)
    (port : Nat) (o : PlatformOutcome)
    (hfail : exceptIsOk (f.registerWithPlatform host port o).2 = false) :
    (f.registerWithPlatform host port o).1.functionId = f.functionId
    ∧ (f.registerWithPlatform host port o).1.endpointUrl.isSome = true
    ∧ (f.endpointUrl = none →
        (f.registerWithPlatform host port o).1.endpointUrl
          = some (mkEndpointUrl host port)) := by
  have hshape : regSuccessShaped o = false := by
    rw [← register_isOk f host port o]
    exact hfail
  refine ⟨register_fail_functionId f host port o hshape,
          register_endpointUrl_isSome f host port o,
          fun he => register_endpointUrl_compute f host port o ?_⟩
  simp [optStrFalsy, he]

/-- Witness for C10: a registration attempt that times out leaves the
identifier absent and stores the computed endpoint URL. -/
theorem register_failure_preserves_functionId_witness :
    ((AgentFunction.init { name := "Echo" }).registerWithPlatform "localhost" 3001
        (PlatformOutcome.networkError "timeout of 10000ms exceeded")).1.functionId = none
    ∧ ((AgentFunction.init { name := "Echo" }).registerWithPlatform "localhost" 3001
        (PlatformOutcome.networkError "timeout of 10000ms exceeded")).1.endpointUrl
      = some "http://localhost:3001/execute" := by
  have h := register_failure_preserves_functionId (AgentFunction.init { name := "Echo" })
    "localhost" 3001 (PlatformOutcome.networkError "timeout of 10000ms exceeded") rfl
  exact ⟨h.1.trans rfl, (h.2.2 rfl).trans rfl⟩
